import Mathlib

/-!
Shallow embedding of the AJDC calibration / parameter-persistence / replay-denoising
subsystem of the ArtifactCorrection repository
(Scripts/Analysis/AJDC/calibration.py, Scripts/Analysis/AJDC/denoising.py,
Scripts/Computation/tools/data_manager.py, Scripts/Analysis/tools/utils.py),
together with the pieces of its external numeric libraries that the scripts call
(pyriemann.spatialfilters.AJDC transform / inverse_transform, numpy array
truthiness and int conversion, mne.make_fixed_length_epochs segmentation).

Signals are modelled time-major: a signal is a list of time samples, each sample
a vector of per-channel values.  Sample and filter values are embedded as exact
integers: every statement proved here is a value-generic data-flow identity of
the scripts, independent of the numeric carrier; floating-point rounding is out
of scope (see the claim on the numerical round-trip tolerance, left unstated).
-/

namespace AjdcSpec

/-- One time sample: a value per channel (or per source, in source space). -/
abbrev Vec := List ℤ

/-- A matrix as a list of rows. -/
abbrev Mat := List (List ℤ)

/-- A multichannel signal, time-major: one vector per sample. -/
abbrev Signal := List Vec

def dot (u v : Vec) : ℤ := (List.zipWith (fun a b => a * b) u v).sum

def matVec (m : Mat) (v : Vec) : Vec := m.map (fun r => dot r v)

/-- The dim_red argument of the pyriemann AJDC constructor: calibration.py uses
expl_var 0.99, denoising.py reconstructs with max_cond 100. -/
inductive DimRed
  | expl_var (q : ℚ)
  | max_cond (n : ℕ)
deriving DecidableEq

/-- The pyriemann AJDC object as the scripts use it: constructor fields plus the
fitted attributes restored field-by-field in denoising.py.  pyriemann's freqs_
attribute is stored by the repository under the name sfreq; its contents are
never used by transform or inverse_transform, so it is embedded opaquely as a
rational. -/
structure AJDC where
  window : ℚ
  overlap : ℚ
  fmin : ℤ
  fmax : ℤ
  fs : ℚ
  dim_red : DimRed
  n_channels_ : ℕ
  n_sources_ : ℕ
  forward_filters_ : Mat
  backward_filters_ : Mat
  freqs_ : ℚ
deriving DecidableEq

/-- pyriemann AJDC.transform: forward_filters_ @ X, i.e. each time sample is
mapped through the forward (demixing) filter.  The shape check against
n_channels_ is not modelled; no claim settled here exercises it. -/
def AJDC.transform (a : AJDC) (x : Signal) : Signal :=
  x.map (matVec a.forward_filters_)

/-- The suppression loop of pyriemann AJDC.inverse_transform:
for s in supp: denois[:, s] = 0 — per time sample, each listed source index is
zeroed in turn. -/
def zero_supp (supp : List ℕ) (v : Vec) : Vec :=
  supp.foldl (fun w s => w.set s 0) v

/-- pyriemann AJDC.inverse_transform: zero the suppressed source rows, then
apply backward_filters_. -/
def AJDC.inverse_transform (a : AJDC) (x : Signal) (supp : List ℕ) : Signal :=
  (x.map (zero_supp supp)).map (matVec a.backward_filters_)

/-- The parameter record written by data_manager.save_ajdc_parameters via
np.savez: field names follow the npz keys.  Component indices come from the
digit-only operator tokens of calibration.py, hence naturals. -/
structure AjdcRecord where
  n_channel : ℕ
  sfreq : ℚ
  fmax : ℤ
  fmin : ℤ
  n_source : ℕ
  overlap : ℚ
  demixage : Mat
  mixage : Mat
  blinks_components : List ℕ
  saccades_components : List ℕ
deriving DecidableEq

/-- data_manager.save_ajdc_parameters: the pure record content written in one
np.savez call (whole-record write). -/
def save_ajdc_parameters (a : AJDC) (blink saccade : List ℕ) : AjdcRecord :=
  { n_channel := a.n_channels_
    sfreq := a.freqs_
    fmax := a.fmax
    fmin := a.fmin
    n_source := a.n_sources_
    overlap := a.overlap
    demixage := a.forward_filters_
    mixage := a.backward_filters_
    blinks_components := blink
    saccades_components := saccade }

/-- The parameter store: one record per file path, written whole-record. -/
abbrev Store := List (String × AjdcRecord)

/-- Writing an npz file: whole-record overwrite of the path. -/
def store_save (st : Store) (key : String) (r : AjdcRecord) : Store :=
  (key, r) :: st.filter (fun p => p.1 != key)

/-- np.load of a parameter path: some record, or none when the file is absent
(FileNotFoundError). -/
def store_load (st : Store) (key : String) : Option AjdcRecord :=
  (st.find? (fun p => p.1 == key)).map Prod.snd

/-- denoising.py lines 64-72: the AJDC object rebuilt from a stored record.
The constructor receives dim_red max_cond 100 regardless of the calibration
setting, and the fitted attributes are then overwritten verbatim from storage;
no fit is re-run (this is a plain record constructor). -/
def reconstruct_ajdc (r : AjdcRecord) : AJDC :=
  { window := r.sfreq
    overlap := r.overlap
    fmin := r.fmin
    fmax := r.fmax
    fs := r.sfreq
    dim_red := DimRed.max_cond 100
    n_channels_ := r.n_channel
    n_sources_ := r.n_source
    forward_filters_ := r.demixage
    backward_filters_ := r.mixage
    freqs_ := r.sfreq }

/-- Errors raised by the numpy operations that denoising.py applies to the
stored blink array (truth value of a non-size-1 array; int() of a non-size-1
array). -/
inductive NpError
  | ambiguousTruthValue
  | conversionSize
deriving DecidableEq

/-- numpy evaluation of `not np.isnan(b)` where b is the flattened stored blink
array: stored component indices are integers, never NaN, so a size-1 array
yields True; the truth value of an array of any other size raises ValueError
(ambiguous truth value). -/
def np_not_isnan (xs : List ℕ) : Except NpError Bool :=
  match xs with
  | [_] => Except.ok true
  | _ => Except.error NpError.ambiguousTruthValue

/-- numpy `int(b)` on an array: only size-1 arrays convert. -/
def np_int (xs : List ℕ) : Except NpError ℕ :=
  match xs with
  | [x] => Except.ok x
  | _ => Except.error NpError.conversionSize

/-- denoising.py lines 75-76:
bad_sources = [ajdc_parameters[blinks_components].flatten()]
bad_sources = [int(b) for b in bad_sources if not np.isnan(b)]
The first line wraps the whole flattened array in a ONE-element python list, so
the comprehension runs once, with b the entire array.  The saccade array is
never read. -/
def extract_bad_sources (blinks : List ℕ) : Except NpError (List ℕ) := do
  let keep ← np_not_isnan blinks
  if keep then
    let b ← np_int blinks
    pure [b]
  else
    pure []

/-- An MNE annotation (onset, duration, description). -/
structure Annot where
  onset : ℚ
  duration : ℚ
  description : String
deriving DecidableEq

/-- An MNE Raw recording as the scripts use it: data, sampling rate (samples
per second), measurement reference timestamp, annotations. -/
structure Recording where
  data : Signal
  sfreq : ℕ
  measDate : ℤ
  annots : List Annot
deriving DecidableEq

/-- mne.make_fixed_length_epochs with duration 0.5 s on a signal whose epoch
length in samples is l: consecutive, non-overlapping slices of exactly l
samples starting at sample 0; a final slice shorter than l is dropped. -/
def make_fixed_length_epochs (l : ℕ) (xs : Signal) : List Signal :=
  (List.range (xs.length / l)).map (fun i => (xs.drop (i * l)).take l)

/-- denoising.py lines 83-106 for one EEG file: prepare/preprocess the signal
(channel re-referencing and filtering, modelled by the sample-count-preserving
map prep on the data; MNE filtering touches neither annotations nor the
measurement date), cut 500 ms epochs (sfreq / 2 samples at an even sampling
rate), denoise each epoch independently through transform and
inverse_transform, concatenate the denoised epochs in order
(mne.concatenate_raws), and reattach the original annotations
(set_annotations(signal.annotations)); the info record carried through
mne.io.RawArray keeps the measurement date. -/
def process_file (a : AJDC) (bad : List ℕ) (prep : Signal → Signal)
    (rec : Recording) : Recording :=
  let signal := prep rec.data
  let l := rec.sfreq / 2
  let epochs := make_fixed_length_epochs l signal
  let raws := epochs.map (fun e => a.inverse_transform (a.transform e) bad)
  { data := raws.flatten
    sfreq := rec.sfreq
    measDate := rec.measDate
    annots := rec.annots }

/-- Observable side effects of one process_denoising call, in program order. -/
inductive Event
  | loadParams (key : String)
  | readFile (name : String)
  | exportFile (name : String)
deriving DecidableEq

inductive DenoiseError
  | notFound
  | numpy (e : NpError)
deriving DecidableEq

/-- Python `pat in s` substring test (character-level). -/
def strContains (s pat : String) : Bool :=
  (List.range (s.toList.length + 1)).any
    (fun i => pat.toList.isPrefixOf (s.toList.drop i))

/-- denoising.py line 110: file[:file.index(".")] + "_denoised.vhdr". -/
def denoised_name (s : String) : String :=
  String.mk (s.toList.takeWhile (fun c => c != '.')) ++ "_denoised.vhdr"

/-- denoising.py process_denoising for one (subject, condition, band) key:
np.load of the parameter record first (FileNotFoundError when absent), then the
AJDC object is rebuilt and the suppression list extracted from the stored blink
array; only afterwards is the raw-data directory listed and each .vhdr file
read, denoised and exported.  Returns the event trace and the (name, corrected
recording) outputs or the error. -/
def process_denoising (st : Store) (key : String) (prep : Signal → Signal)
    (files : List (String × Recording)) :
    List Event × Except DenoiseError (List (String × Recording)) :=
  match store_load st key with
  | none => ([Event.loadParams key], Except.error DenoiseError.notFound)
  | some r =>
    match extract_bad_sources r.blinks_components with
    | Except.error e => ([Event.loadParams key], Except.error (DenoiseError.numpy e))
    | Except.ok bad =>
      let a := reconstruct_ajdc r
      let vhdr := files.filter (fun f => strContains f.1 ".vhdr")
      (Event.loadParams key ::
        (vhdr.map (fun f => [Event.readFile f.1, Event.exportFile (denoised_name f.1)])).flatten,
       Except.ok (vhdr.map (fun f => (denoised_name f.1, process_file a bad prep f.2))))

/-- Helper for Python str.split(): accumulate the current run of non-whitespace
characters (in reverse) and emit completed runs; runs of whitespace produce no
empty tokens. -/
def split_words : List Char → List Char → List (List Char)
  | [], acc => if acc.isEmpty then [] else [acc.reverse]
  | c :: cs, acc =>
    if c.isWhitespace then
      if acc.isEmpty then split_words cs [] else acc.reverse :: split_words cs []
    else
      split_words cs (c :: acc)

/-- Python str.split() with no separator: split on runs of whitespace,
discarding empty tokens (an empty or all-whitespace string yields []). -/
def py_split (s : String) : List String :=
  (split_words s.toList []).map (fun cs => String.mk cs)

/-- Python str.isdigit() over the ASCII alphabet the operator prompt uses:
nonempty and every character a decimal digit. -/
def py_isdigit (s : String) : Bool :=
  !s.isEmpty && s.toList.all Char.isDigit

/-- Python int() on a digit-only token. -/
def digits_to_nat (s : String) : ℕ :=
  s.toList.foldl (fun n c => 10 * n + (c.toNat - 48)) 0

/-- calibration.py lines 110-115 for one operator input string:
[int(num) for num in input_str.split() if num.isdigit()]. -/
def parse_components (s : String) : List ℕ :=
  ((py_split s).filter py_isdigit).map digits_to_nat

/-- calibration.py lines 118-120: bad_sources = blink + saccade, then the
(vacuous, since the entries are ints) filter dropping entries whose str()
contains "NaN". -/
def bad_sources_calibration (blink saccade : List ℕ) : List ℕ :=
  (blink ++ saccade).filter (fun s => !strContains (toString s) "NaN")

/-- utils.extract_number: subjects named sub-Pilote* map to 0, otherwise the
first run of digits in the name (re.findall first match), otherwise None. -/
def first_number : List Char → Option ℕ
  | [] => none
  | c :: cs =>
    if c.isDigit then
      some ((c :: cs.takeWhile Char.isDigit).foldl (fun n d => 10 * n + (d.toNat - 48)) 0)
    else
      first_number cs

def extract_number (s : String) : Option ℕ :=
  if "sub-Pilote".toList.isPrefixOf s.toList then some 0 else first_number s.toList

/-- The skip test of calibrate_ajdc / denoise_ajdc:
if extract_number(subject) in [0, 1, 9, 10]: print("Data not available"); continue. -/
def skip_subject (s : String) : Bool :=
  match extract_number s with
  | some n => n == 0 || n == 1 || n == 9 || n == 10
  | none => false

/-- The inner subject loop of the batch drivers, for one condition: skipped
subjects are passed over and the loop continues; a python exception raised by
the per-subject processing call propagates, ending the whole driver (there is
no try/except in calibrate_ajdc or denoise_ajdc).  Returns the (condition,
subject) pairs fully processed, and the escaping error if any. -/
def run_condition (process : String → String → Except ε Unit) (c : String) :
    List String → List (String × String) × Option ε
  | [] => ([], none)
  | s :: rest =>
    if skip_subject s then
      run_condition process c rest
    else
      match process c s with
      | Except.error e => ([], some e)
      | Except.ok _ =>
        let t := run_condition process c rest
        ((c, s) :: t.1, t.2)

/-- The batch driver shared (line for line) by calibrate_ajdc (calibration.py
lines 41-49) and denoise_ajdc (denoising.py lines 39-47): for condition in
conditions: for subject in subjects: skip or process.  An error escaping one
subject aborts the remaining subjects and conditions. -/
def batch_driver (process : String → String → Except ε Unit) :
    List String → List String → List (String × String) × Option ε
  | [], _ => ([], none)
  | c :: cs, subs =>
    match run_condition process c subs with
    | (ps, some e) => (ps, some e)
    | (ps, none) =>
      let t := batch_driver process cs subs
      (ps ++ t.1, t.2)

/-- calibration.py calibrate_ajdc, parametrized by the per-subject processing
body (process_calibration, which can raise). -/
abbrev calibrate_ajdc (process : String → String → Except ε Unit)
    (conditions subjects : List String) : List (String × String) × Option ε :=
  batch_driver process conditions subjects

/-- denoising.py denoise_ajdc: the identical driver loop around
process_denoising. -/
abbrev denoise_ajdc (process : String → String → Except ε Unit)
    (conditions subjects : List String) : List (String × String) × Option ε :=
  batch_driver process conditions subjects

deriving instance DecidableEq for Except

/-- Whether an Except value is a success. -/
def except_ok {ε α : Type} : Except ε α → Bool
  | Except.ok _ => true
  | Except.error _ => false

/-- A small concrete fitted decomposition (one channel, one source, identity
filters) used to instantiate theorems at concrete inputs. -/
def example_ajdc : AJDC :=
  { window := 4
    overlap := 1 / 2
    fmin := 1
    fmax := 40
    fs := 4
    dim_red := DimRed.expl_var (99 / 100)
    n_channels_ := 1
    n_sources_ := 1
    forward_filters_ := [[1]]
    backward_filters_ := [[1]]
    freqs_ := 4 }

/-- A concrete recording: one channel, 5 samples at 4 Hz (1.25 s), one
annotation, measurement date 7. -/
def example_recording : Recording :=
  { data := [[1], [1], [1], [1], [1]]
    sfreq := 4
    measDate := 7
    annots := [{ onset := 0, duration := 1, description := "Stimulus/S 16" }] }

/-- A stored parameter record with a single blink component. -/
def example_record_good : AjdcRecord := save_ajdc_parameters example_ajdc [0] []

/-- A stored parameter record with two blink components. -/
def example_record_two_blinks : AjdcRecord := save_ajdc_parameters example_ajdc [1, 2] [5]

/-- A per-subject processing body that raises on subject sub-S002 and succeeds
elsewhere. -/
def failing_process : String → String → Except Unit Unit :=
  fun _ s => if s = "sub-S002" then Except.error () else Except.ok ()

/-! ## Theorems -/

/-- Helper: writing a record and reading the same key returns that record. -/
theorem store_load_save (st : Store) (key : String) (r : AjdcRecord) :
    store_load (store_save st key r) key = some r := by
  simp [store_load, store_save, List.find?]

/-- Claim C9: zeroing a source index listed twice in the suppression collection
equals zeroing it listed once — the per-index assignment denois[:, s] = 0 of
inverse_transform is idempotent, so duplicate suppression indices collapse. -/
theorem c9_suppression_idempotence (a : AJDC) (x : Signal) (i : ℕ) :
    a.inverse_transform x [i, i] = a.inverse_transform x [i] := by
  simp [AJDC.inverse_transform, zero_supp, List.set_set]

/-- Claim C3: saving a fitted parameter set and loading it back returns the
record unchanged, the reconstructed decomposition object carries the stored
forward and backward filters verbatim (the reconstruction is a plain record
constructor — no fit is re-run), denoising a fixed segment through the
reconstructed object equals denoising through the original in-memory object,
and the dimensionality-reduction setting has no effect on transform or
inverse_transform output. -/
theorem c3_persistence_round_trip (st : Store) (key : String) (a : AJDC)
    (blink saccade : List ℕ) (seg : Signal) (supp : List ℕ) (d : DimRed) :
    store_load (store_save st key (save_ajdc_parameters a blink saccade)) key
      = some (save_ajdc_parameters a blink saccade) ∧
    (reconstruct_ajdc (save_ajdc_parameters a blink saccade)).forward_filters_
      = a.forward_filters_ ∧
    (reconstruct_ajdc (save_ajdc_parameters a blink saccade)).backward_filters_
      = a.backward_filters_ ∧
    (reconstruct_ajdc (save_ajdc_parameters a blink saccade)).inverse_transform
        ((reconstruct_ajdc (save_ajdc_parameters a blink saccade)).transform seg) supp
      = a.inverse_transform (a.transform seg) supp ∧
    AJDC.inverse_transform { a with dim_red := d }
        (AJDC.transform { a with dim_red := d } seg) supp
      = a.inverse_transform (a.transform seg) supp :=
  ⟨store_load_save st key (save_ajdc_parameters a blink saccade), rfl, rfl, rfl, rfl⟩

/-- Claim C7: when no parameter record is stored for the key, process_denoising
fails with the load error immediately — the only event in its trace is the
parameter load, so no recording of the subject is read or transformed. -/
theorem c7_missing_parameters_fatal (st : Store) (key : String)
    (prep : Signal → Signal) (files : List (String × Recording))
    (h : store_load st key = none) :
    (process_denoising st key prep files).2 = Except.error DenoiseError.notFound ∧
    ∀ n, Event.readFile n ∉ (process_denoising st key prep files).1 := by
  simp [process_denoising, h]

/-- Witness for C7 at a concrete empty store. -/
theorem c7_missing_parameters_fatal_witness :
    store_load [] "k" = none ∧
    ((process_denoising [] "k" id []).2 = Except.error DenoiseError.notFound ∧
      ∀ n, Event.readFile n ∉ (process_denoising [] "k" id []).1) :=
  ⟨rfl, c7_missing_parameters_fatal [] "k" id [] rfl⟩

/-- Claim C1 (evaluated at the failing input): calibration combines blink [2]
and saccade [5] into the suppression set [2, 5] and stores both lists, but the
replay extraction of denoising.py rebuilds its suppression list from the stored
blinks_components alone, yielding [2]: the saccade index is never suppressed at
replay, contradicting the inline comment "Extract bad components (blinks and
saccades) for denoising". -/
theorem c1_replay_suppression_not_combined :
    bad_sources_calibration [2] [5] = [2, 5] ∧
    extract_bad_sources (save_ajdc_parameters example_ajdc [2] [5]).blinks_components
      = Except.ok [2] ∧
    extract_bad_sources (save_ajdc_parameters example_ajdc [2] [5]).blinks_components
      ≠ Except.ok (bad_sources_calibration [2] [5]) := by
  refine ⟨by decide, rfl, by decide⟩

/-- Helper: the replay extraction raises the ambiguous-truth-value error on any
blink array of two or more entries. -/
theorem extract_bad_sources_two (bl : List ℕ) (h : 2 ≤ bl.length) :
    extract_bad_sources bl = Except.error NpError.ambiguousTruthValue := by
  match bl with
  | [] => simp at h
  | [b] => simp at h
  | a :: b :: t => rfl

/-- Claim C10: the replay suppression list is built from the stored
blinks_components array alone (records differing only in saccades_components
denoise identically), the wrap-filter-convert construction succeeds exactly
when that array has one element, and for any stored record with two or more
blink indices process_denoising raises before any EEG file of the subject is
read. -/
theorem c10_blink_extraction_single :
    (∀ bl : List ℕ, except_ok (extract_bad_sources bl) = true ↔ bl.length = 1) ∧
    (∀ (st : Store) (key : String) (prep : Signal → Signal)
        (files : List (String × Recording)) (r : AjdcRecord),
      store_load st key = some r → 2 ≤ r.blinks_components.length →
      (process_denoising st key prep files).2
          = Except.error (DenoiseError.numpy NpError.ambiguousTruthValue) ∧
        ∀ n, Event.readFile n ∉ (process_denoising st key prep files).1) ∧
    (∀ (r : AjdcRecord) (sacc : List ℕ) (key : String) (st : Store)
        (prep : Signal → Signal) (files : List (String × Recording)),
      process_denoising (store_save st key { r with saccades_components := sacc })
          key prep files
        = process_denoising (store_save st key r) key prep files) := by
  refine ⟨?_, ?_, ?_⟩
  · intro bl
    match bl with
    | [] =>
      simp [show except_ok (extract_bad_sources ([] : List ℕ)) = false from rfl]
    | [b] =>
      simp [show except_ok (extract_bad_sources [b]) = true from rfl]
    | a :: b :: t =>
      simp [show except_ok (extract_bad_sources (a :: b :: t)) = false from rfl]
  · intro st key prep files r hload hlen
    simp [process_denoising, hload, extract_bad_sources_two r.blinks_components hlen]
  · intro r sacc key st prep files
    simp [process_denoising, store_load_save, reconstruct_ajdc]

/-- Witness for C10 at a concrete store holding a two-blink record. -/
theorem c10_blink_extraction_single_witness :
    store_load (store_save [] "k" example_record_two_blinks) "k"
      = some example_record_two_blinks ∧
    2 ≤ example_record_two_blinks.blinks_components.length ∧
    ((process_denoising (store_save [] "k" example_record_two_blinks) "k" id []).2
        = Except.error (DenoiseError.numpy NpError.ambiguousTruthValue) ∧
      ∀ n, Event.readFile n
        ∉ (process_denoising (store_save [] "k" example_record_two_blinks) "k" id []).1) :=
  ⟨store_load_save [] "k" example_record_two_blinks, by decide,
    c10_blink_extraction_single.2.1 (store_save [] "k" example_record_two_blinks) "k" id []
      example_record_two_blinks
      (store_load_save [] "k" example_record_two_blinks) (by decide)⟩

/-- Claim C6: denoising one recording yields a corrected recording carrying
that recording's annotations unmodified and its measurement reference
timestamp verbatim; and a whole replay run maps each .vhdr input file, in
order, to exactly the pair (denoised name of that file, process_file applied
to that file's recording), so every output's annotations and timestamp are
those of the input file it was produced from. -/
theorem c6_annotations_timestamp_preserved :
    (∀ (a : AJDC) (bad : List ℕ) (prep : Signal → Signal) (rec : Recording),
      (process_file a bad prep rec).annots = rec.annots ∧
      (process_file a bad prep rec).measDate = rec.measDate) ∧
    (∀ (st : Store) (key : String) (prep : Signal → Signal)
        (files : List (String × Recording)) (r : AjdcRecord) (bad : List ℕ),
      store_load st key = some r →
      extract_bad_sources r.blinks_components = Except.ok bad →
      (process_denoising st key prep files).2
        = Except.ok ((files.filter (fun f => strContains f.1 ".vhdr")).map
            (fun f => (denoised_name f.1,
              process_file (reconstruct_ajdc r) bad prep f.2)))) := by
  refine ⟨fun a bad prep rec => ⟨rfl, rfl⟩, ?_⟩
  intro st key prep files r bad hload hext
  simp [process_denoising, hload, hext]

/-- Witness for C6 at a concrete run: one stored record, one input file. -/
theorem c6_annotations_timestamp_preserved_witness :
    ((process_file example_ajdc [0] id example_recording).annots
        = example_recording.annots ∧
      (process_file example_ajdc [0] id example_recording).measDate
        = example_recording.measDate) ∧
    (process_denoising (store_save [] "k" example_record_good) "k" id
        [("a.vhdr", example_recording)]).2
      = Except.ok (([("a.vhdr", example_recording)].filter
            (fun f => strContains f.1 ".vhdr")).map
          (fun f => (denoised_name f.1,
            process_file (reconstruct_ajdc example_record_good) [0] id f.2))) :=
  ⟨c6_annotations_timestamp_preserved.1 example_ajdc [0] id example_recording,
    c6_annotations_timestamp_preserved.2 (store_save [] "k" example_record_good) "k" id
      [("a.vhdr", example_recording)] example_record_good [0]
      (store_load_save [] "k" example_record_good) rfl⟩

/-- Helper: every epoch produced by the fixed-length segmentation has exactly
l samples. -/
theorem epoch_mem_length (l : ℕ) (xs : Signal) (hl : 0 < l) :
    ∀ e ∈ make_fixed_length_epochs l xs, e.length = l := by
  intro e he
  simp only [make_fixed_length_epochs, List.mem_map, List.mem_range] at he
  obtain ⟨i, hi, rfl⟩ := he
  have h1 : (i + 1) * l ≤ xs.length :=
    le_trans (Nat.mul_le_mul_right l hi) (Nat.div_mul_le_self _ _)
  have h2 : i * l + l ≤ xs.length := by rw [← Nat.succ_mul]; exact h1
  simp only [List.length_take, List.length_drop]
  omega

/-- Helper: summing a function that is constantly l over a list. -/
theorem sum_map_const_of {α : Type} (g : α → ℕ) (l : ℕ) :
    ∀ xs : List α, (∀ e ∈ xs, g e = l) → (xs.map g).sum = xs.length * l := by
  intro xs
  induction xs with
  | nil => simp
  | cons e t ih =>
    intro h
    have he := h e (by simp)
    have ht := ih (fun x hx => h x (by simp [hx]))
    simp [he, ht, Nat.succ_mul, Nat.add_comm]

/-- Claim C2: replay denoising cuts the (sample-count-preserving) preprocessed
recording into consecutive, non-overlapping epochs of exactly l = sfreq/2
samples (500 ms) starting at sample 0; the final partial epoch is dropped, the
corrected output holds exactly (n / l) * l samples, and its duration in seconds
is floor(d / 0.5) * 0.5 where d is the input duration in seconds. -/
theorem c2_epoch_truncation (a : AJDC) (bad : List ℕ) (prep : Signal → Signal)
    (rec : Recording) (l n : ℕ) (hl : 0 < l) (hsf : rec.sfreq = 2 * l)
    (hprep : (prep rec.data).length = rec.data.length) (hn : rec.data.length = n) :
    (∀ e ∈ make_fixed_length_epochs (rec.sfreq / 2) (prep rec.data), e.length = l) ∧
    (make_fixed_length_epochs (rec.sfreq / 2) (prep rec.data)).length = n / l ∧
    (process_file a bad prep rec).data.length = n / l * l ∧
    ((process_file a bad prep rec).data.length : ℚ) / (rec.sfreq : ℚ)
      = (⌊((n : ℚ) / (rec.sfreq : ℚ)) / (1 / 2 : ℚ)⌋₊ : ℚ) * (1 / 2 : ℚ) := by
  have hl2 : rec.sfreq / 2 = l := by omega
  have hlen : (prep rec.data).length = n := hprep.trans hn
  have hmem : ∀ e ∈ make_fixed_length_epochs l (prep rec.data), e.length = l :=
    epoch_mem_length l (prep rec.data) hl
  have hcount : (make_fixed_length_epochs l (prep rec.data)).length = n / l := by
    simp [make_fixed_length_epochs, hlen]
  have hout : (process_file a bad prep rec).data.length = n / l * l := by
    simp only [process_file, hl2, List.length_flatten, List.map_map]
    rw [sum_map_const_of _ l _
      (fun e he => by
        simpa [AJDC.inverse_transform, AJDC.transform] using hmem e he)]
    rw [hcount]
  refine ⟨hl2 ▸ hmem, hl2 ▸ hcount, hout, ?_⟩
  have hlq : (l : ℚ) ≠ 0 := ne_of_gt (by exact_mod_cast hl)
  have hdiv : ((n : ℚ) / (((2 * l : ℕ) : ℕ) : ℚ)) / (1 / 2 : ℚ) = (n : ℚ) / (l : ℚ) := by
    push_cast; field_simp; ring
  rw [hout, hsf, hdiv, Nat.floor_div_nat, Nat.floor_natCast]
  push_cast
  field_simp
  ring

/-- Witness for C2: a 5-sample recording at 4 Hz (1.25 s) yields 4 samples
(1.0 s = floor(1.25 / 0.5) * 0.5). -/
theorem c2_epoch_truncation_witness :
    0 < 2 ∧ example_recording.sfreq = 2 * 2 ∧
    ((∀ e ∈ make_fixed_length_epochs (example_recording.sfreq / 2)
        (id example_recording.data), e.length = 2) ∧
      (make_fixed_length_epochs (example_recording.sfreq / 2)
        (id example_recording.data)).length = 5 / 2 ∧
      (process_file example_ajdc [] id example_recording).data.length = 5 / 2 * 2 ∧
      ((process_file example_ajdc [] id example_recording).data.length : ℚ)
          / (example_recording.sfreq : ℚ)
        = (⌊(((5 : ℕ) : ℚ) / (example_recording.sfreq : ℚ)) / (1 / 2 : ℚ)⌋₊ : ℚ)
            * (1 / 2 : ℚ)) :=
  ⟨by decide, rfl,
    c2_epoch_truncation example_ajdc [] id example_recording 2 5 (by decide) rfl rfl rfl⟩

/-- Claim C5 fails on the code (counterexample): the drivers have no
try/except, so when processing raises on subject sub-S002 (not in the skip
list), the driver ends with the escaping error and subject sub-S003 is never
processed. -/
theorem c5_failure_aborts_counterexample :
    calibrate_ajdc failing_process ["_CLEAN_"] ["sub-S002", "sub-S003"]
      = ([], some ()) ∧
    ("_CLEAN_", "sub-S003")
      ∉ (calibrate_ajdc failing_process ["_CLEAN_"] ["sub-S002", "sub-S003"]).1 ∧
    skip_subject "sub-S002" = false ∧ skip_subject "sub-S003" = false := by
  decide

/-- Helper: a condition loop whose non-skipped subjects all process cleanly
visits exactly the non-skipped subjects, in order. -/
theorem run_condition_ok {ε : Type} (process : String → String → Except ε Unit)
    (c : String) (subs : List String)
    (h : ∀ s ∈ subs, skip_subject s = false → process c s = Except.ok ()) :
    run_condition process c subs
      = ((subs.filter (fun s => !skip_subject s)).map (fun s => (c, s)), none) := by
  induction subs with
  | nil => rfl
  | cons s rest ih =>
    have ih' := ih (fun t ht hsk => h t (by simp [ht]) hsk)
    cases hs : skip_subject s with
    | true => simp [run_condition, hs, ih']
    | false =>
      have hok := h s (by simp) hs
      simp [run_condition, hs, hok, ih']

/-- Claim C5 as amended: an explicit "data not available" skip never aborts the
remaining subjects — when every non-skipped (condition, subject) pair processes
without failure the drivers process exactly the non-skipped pairs in order —
and a parameter record is only ever written as one whole record; but an error
raised while processing one subject propagates and aborts all remaining
processing. -/
theorem c5_skip_isolation_amended {ε : Type}
    (process : String → String → Except ε Unit) (conds subs : List String)
    (h : ∀ c ∈ conds, ∀ s ∈ subs, skip_subject s = false → process c s = Except.ok ()) :
    batch_driver process conds subs
      = ((conds.map (fun c =>
            ((subs.filter (fun s => !skip_subject s)).map (fun s => (c, s))))).flatten,
          none) ∧
    (∀ (st : Store) (k : String) (r : AjdcRecord),
      store_load (store_save st k r) k = some r) ∧
    (∀ (c s0 : String) (rest : List String) (e : ε),
      skip_subject s0 = false → process c s0 = Except.error e →
      run_condition process c (s0 :: rest) = ([], some e)) := by
  refine ⟨?_, fun st k r => store_load_save st k r, ?_⟩
  · induction conds with
    | nil => rfl
    | cons c cs ih =>
      have hc := run_condition_ok process c subs (fun s hs hsk => h c (by simp) s hs hsk)
      have ih' := ih (fun c' hc' s hs hsk => h c' (by simp [hc']) s hs hsk)
      simp [batch_driver, hc, ih']
  · intro c s0 rest e hskip herr
    simp [run_condition, hskip, herr]

/-- Witness for the amended C5: with a body failing only on the absent subject
sub-S002, the driver skips sub-S001 (subject number 1) and processes sub-S003;
reaching a failing subject stops the loop with nothing further processed. -/
theorem c5_skip_isolation_amended_witness :
    batch_driver failing_process ["_CLEAN_"] ["sub-S001", "sub-S003"]
      = (((["_CLEAN_"].map (fun c =>
            ((["sub-S001", "sub-S003"].filter (fun s => !skip_subject s)).map
              (fun s => (c, s))))).flatten),
          none) ∧
    store_load (store_save [] "k" example_record_good) "k" = some example_record_good ∧
    run_condition failing_process "_CLEAN_" ["sub-S002"] = ([], some ()) := by
  have h := c5_skip_isolation_amended failing_process ["_CLEAN_"] ["sub-S001", "sub-S003"]
    (by intro c hc s hs hsk; fin_cases hs <;> rfl)
  exact ⟨h.1, h.2.1 [] "k" example_record_good,
    h.2.2 "_CLEAN_" "sub-S002" [] () (by decide) rfl⟩

/-- Helper: every token produced by the whitespace splitter is nonempty and
contains no whitespace character. -/
theorem split_words_words :
    ∀ (cs acc : List Char), (∀ c ∈ acc, c.isWhitespace = false) →
      ∀ w ∈ split_words cs acc, w ≠ [] ∧ ∀ c ∈ w, c.isWhitespace = false := by
  intro cs
  induction cs with
  | nil =>
    intro acc hacc w hw
    by_cases ha : acc.isEmpty = true
    · simp [split_words, ha] at hw
    · rw [split_words, if_neg ha] at hw
      rcases List.mem_singleton.mp hw with rfl
      refine ⟨?_, fun c hc => hacc c (List.mem_reverse.mp hc)⟩
      intro hnil
      exact ha (by rw [List.isEmpty_iff]; exact List.reverse_eq_nil_iff.mp hnil)
  | cons c rest ih =>
    intro acc hacc w hw
    rw [split_words] at hw
    by_cases hcw : c.isWhitespace = true
    · rw [if_pos hcw] at hw
      by_cases ha : acc.isEmpty = true
      · rw [if_pos ha] at hw
        exact ih [] (by simp) w hw
      · rw [if_neg ha] at hw
        rcases List.mem_cons.mp hw with rfl | hw'
        · refine ⟨?_, fun d hd => hacc d (List.mem_reverse.mp hd)⟩
          intro hnil
          exact ha (by rw [List.isEmpty_iff]; exact List.reverse_eq_nil_iff.mp hnil)
        · exact ih [] (by simp) w hw'
    · rw [if_neg hcw] at hw
      refine ih (c :: acc) ?_ w hw
      intro d hd
      rcases List.mem_cons.mp hd with rfl | hd'
      · exact Bool.eq_false_iff.mpr hcw
      · exact hacc d hd'

/-- Claim C8: the operator index lists are obtained by splitting each input
string on whitespace (tokens are the nonempty whitespace-free runs) and keeping
exactly the all-digit tokens converted to integers; the empty input string
yields the empty index list, and a value appears in the parsed list exactly
when some all-digit token denotes it. -/
theorem c8_operator_token_parsing :
    parse_components "" = [] ∧
    (∀ s : String,
      parse_components s = ((py_split s).filter py_isdigit).map digits_to_nat) ∧
    (∀ (s t : String), t ∈ py_split s →
      t.toList ≠ [] ∧ ∀ c ∈ t.toList, c.isWhitespace = false) ∧
    (∀ (s : String) (n : ℕ), n ∈ parse_components s ↔
      ∃ t, t ∈ py_split s ∧ py_isdigit t = true ∧ n = digits_to_nat t) := by
  refine ⟨rfl, fun s => rfl, ?_, ?_⟩
  · intro s t ht
    simp only [py_split, List.mem_map] at ht
    obtain ⟨w, hw, rfl⟩ := ht
    exact split_words_words s.toList [] (by simp) w hw
  · intro s n
    simp only [parse_components, List.mem_map, List.mem_filter]
    constructor
    · rintro ⟨t, ⟨ht, hd⟩, rfl⟩
      exact ⟨t, ht, hd, rfl⟩
    · rintro ⟨t, ht, hd, rfl⟩
      exact ⟨t, ⟨ht, hd⟩, rfl⟩

/-- Witness for C8: on the input "ab 7" the token "ab" is nonempty and
whitespace-free, and 7 is parsed from the all-digit token "7". -/
theorem c8_operator_token_parsing_witness :
    ("ab".toList ≠ [] ∧ ∀ c ∈ "ab".toList, c.isWhitespace = false) ∧
    (7 : ℕ) ∈ parse_components "ab 7" :=
  ⟨c8_operator_token_parsing.2.2.1 "ab 7" "ab" (by decide),
    (c8_operator_token_parsing.2.2.2 "ab 7" 7).mpr ⟨"7", by decide, by decide, by decide⟩⟩

end AjdcSpec
